import Mathlib

/-!
Shallow embedding of `src/widgets/tab_viewer.rs` from the `egui_dock` crate:
the `TabViewer` delegation contract and the `OnCloseResponse` close-negotiation
enum, together with theorems about the default implementations.

Modelling conventions:
* Rust's `&mut` receivers are modelled by explicit state passing: an operation
  taking `&mut self` and `&mut tab` consumes the viewer state `V` and the tab
  state `T` and returns the (possibly updated) states alongside its result.
  Operations taking `&self` / `&tab` receive the states but do not return them.
* External boundary types from the `egui` crate (`WidgetText`, `Id`, `Ui`,
  `Response`) and the opaque handles of the host tree (`SurfaceIndex`,
  `NodeIndex`, `TabStyle`) are modelled only to the extent this file uses them:
  `WidgetText` carries the text returned by `WidgetText::text`, and `Id.new`
  is a deterministic function of its source string, mirroring the fact that
  `egui::Id::new` hashes its argument.  The drawing context `Ui` and the
  interaction result `Response` stay fully opaque type parameters.
-/

namespace EguiDock

/-- Model of `egui::WidgetText` restricted to the one observation the contract
makes of it: `WidgetText::text`, the underlying displayable text. -/
structure WidgetText where
  text : String
  deriving DecidableEq, Repr

/-- Model of `egui::Id`.  `egui::Id::new` hashes its source value; the model
keeps the source string itself, which preserves the property relied on here:
`Id::new` is a deterministic function of the source text. -/
structure Id where
  source : String
  deriving DecidableEq, Repr

/-- Model of `egui::Id::new` applied to a string source. -/
def Id.new (source : String) : Id :=
  ⟨source⟩

/-- Modelled from the spec: `SurfaceIndex` is an opaque location handle into
the external tree (its defining module is not among the given sources). -/
structure SurfaceIndex where
  idx : Nat
  deriving DecidableEq, Repr

/-- Modelled from the spec: `NodeIndex` is an opaque location handle into the
external tree (its defining module is not among the given sources). -/
structure NodeIndex where
  idx : Nat
  deriving DecidableEq, Repr

/-- Modelled from the spec: `TabStyle` is a per-tab style record whose fields
the contract never inspects (its defining module is not among the given
sources); it is kept abstract as a unit-like record. -/
structure TabStyle where
  deriving DecidableEq, Repr

/-- Determines what happens to a tab when a user attempts to close it
(`OnCloseResponse` in `tab_viewer.rs`). -/
inductive OnCloseResponse where
  /-- Closes the tab. -/
  | Close
  /-- Focuses on the tab. -/
  | Focus
  /-- Ignores the close request. -/
  | Ignore
  deriving DecidableEq, Repr

/-- The `TabViewer` trait.  `V` is the implementer's own state (Rust `Self`),
`T` the opaque tab-state type (`Self::Tab`), `Ui` the opaque drawing context.
Only the two operations without default bodies are fields; every defaulted
operation is a function on `TabViewer` below, translated from its Rust
default body. -/
structure TabViewer (V T Ui : Type) where
  /-- `fn title(&mut self, tab: &mut Self::Tab) -> WidgetText` (required). -/
  title : V → T → WidgetText × V × T
  /-- `fn ui(&mut self, ui: &mut Ui, tab: &mut Self::Tab)` (required). -/
  ui : V → Ui → T → V × Ui × T

variable {V T Ui R : Type}

/-- Default body of `fn context_menu(&mut self, _ui, _tab, _surface, _node)`:
empty body, so every mutable argument is returned unchanged. -/
def TabViewer.context_menu (_self : TabViewer V T Ui) (v : V) (u : Ui) (t : T)
    (_surface : SurfaceIndex) (_node : NodeIndex) : V × Ui × T :=
  (v, u, t)

/-- Default body of `fn id(&mut self, tab: &mut Self::Tab) -> Id`:
`Id::new(self.title(tab).text())`.  The call to `title` may mutate both the
viewer and the tab, so those updated states are threaded through. -/
def TabViewer.id (self : TabViewer V T Ui) (v : V) (t : T) : Id × V × T :=
  let r := self.title v t
  (Id.new r.1.text, r.2.1, r.2.2)

/-- Default body of `fn on_tab_button(&mut self, _tab, _response)`: empty. -/
def TabViewer.on_tab_button (_self : TabViewer V T Ui) (v : V) (t : T)
    (_response : R) : V × T :=
  (v, t)

/-- Default body of `fn on_close(&mut self, _tab) -> OnCloseResponse`:
returns `OnCloseResponse::Close`. -/
def TabViewer.on_close (_self : TabViewer V T Ui) (v : V) (t : T) :
    OnCloseResponse × V × T :=
  (OnCloseResponse.Close, v, t)

/-- Default body of `fn is_closeable(&self, _tab: &Self::Tab) -> bool`:
returns `true`.  Immutable receivers, so no state is returned. -/
def TabViewer.is_closeable (_self : TabViewer V T Ui) (_v : V) (_t : T) : Bool :=
  true

/-- Default body of the deprecated `fn closeable(&mut self, _tab) -> bool`:
returns `true`; the mutable receivers are returned unchanged. -/
def TabViewer.closeable (_self : TabViewer V T Ui) (v : V) (t : T) :
    Bool × V × T :=
  (true, v, t)

/-- Default body of `fn force_close(&mut self, _tab) -> bool`: returns
`false`; the mutable receivers are returned unchanged. -/
def TabViewer.force_close (_self : TabViewer V T Ui) (v : V) (t : T) :
    Bool × V × T :=
  (false, v, t)

/-- Default body of `fn on_add(&mut self, _surface, _node)`: empty. -/
def TabViewer.on_add (_self : TabViewer V T Ui) (v : V)
    (_surface : SurfaceIndex) (_node : NodeIndex) : V :=
  v

/-- Default body of `fn on_rect_changed(&mut self, _tab)`: empty. -/
def TabViewer.on_rect_changed (_self : TabViewer V T Ui) (v : V) (t : T) :
    V × T :=
  (v, t)

/-- Default body of `fn add_popup(&mut self, _ui, _surface, _node)`: empty. -/
def TabViewer.add_popup (_self : TabViewer V T Ui) (v : V) (u : Ui)
    (_surface : SurfaceIndex) (_node : NodeIndex) : V × Ui :=
  (v, u)

/-- Default body of
`fn tab_style_override(&self, _tab, _global_style) -> Option<TabStyle>`:
returns `None`.  Immutable receivers, so no state is returned. -/
def TabViewer.tab_style_override (_self : TabViewer V T Ui) (_v : V) (_t : T)
    (_global_style : TabStyle) : Option TabStyle :=
  none

/-- Default body of `fn allowed_in_windows(&self, _tab: &mut Self::Tab) -> bool`:
returns `true`; the viewer is immutable but the tab is a mutable reference and
is returned unchanged. -/
def TabViewer.allowed_in_windows (_self : TabViewer V T Ui) (_v : V) (t : T) :
    Bool × T :=
  (true, t)

/-- Default body of `fn clear_background(&self, _tab: &Self::Tab) -> bool`:
returns `true`. -/
def TabViewer.clear_background (_self : TabViewer V T Ui) (_v : V) (_t : T) :
    Bool :=
  true

/-- Default body of `fn scroll_bars(&self, _tab: &Self::Tab) -> [bool; 2]`:
returns `[true, true]`; index 0 is the horizontal flag, index 1 the
vertical flag. -/
def TabViewer.scroll_bars (_self : TabViewer V T Ui) (_v : V) (_t : T) :
    List Bool :=
  [true, true]

/-- A concrete viewer whose `title` always returns the text "Settings",
used to evaluate theorems with hypotheses at concrete inputs. -/
def settingsViewer : TabViewer Unit Unit Unit where
  title := fun v t => (⟨"Settings"⟩, v, t)
  ui := fun v u t => (v, u, t)

/-- A second concrete viewer over different state types whose `title` also
returns the text "Settings" but mutates its own state. -/
def settingsViewerNat : TabViewer Nat Nat Unit where
  title := fun v t => (⟨"Settings"⟩, v + 1, t)
  ui := fun v u t => (v, u, t)

/-- C1: the default `id` of a tab equals `Id::new` applied to the text
returned by `title` for that tab, and for any two tabs — possibly in
different viewers, both using the default — whose `title` operations return
the same text, the default identities are equal: identity is a pure function
of the title text when unoverridden. -/
theorem default_id_pure_function_of_title {V₁ T₁ U₁ V₂ T₂ U₂ : Type}
    (a : TabViewer V₁ T₁ U₁) (b : TabViewer V₂ T₂ U₂)
    (v₁ : V₁) (t₁ : T₁) (v₂ : V₂) (t₂ : T₂)
    (h : (a.title v₁ t₁).1.text = (b.title v₂ t₂).1.text) :
    (TabViewer.id a v₁ t₁).1 = Id.new ((a.title v₁ t₁).1.text) ∧
    (TabViewer.id a v₁ t₁).1 = (TabViewer.id b v₂ t₂).1 := by
  refine ⟨rfl, ?_⟩
  show Id.new ((a.title v₁ t₁).1.text) = Id.new ((b.title v₂ t₂).1.text)
  exact congrArg Id.new h

/-- Witness for C1: two concrete viewers over different state types whose
titles both evaluate to the text "Settings" receive equal default ids. -/
theorem default_id_pure_function_of_title_witness :
    (settingsViewer.title () ()).1.text = (settingsViewerNat.title 0 5).1.text ∧
    (TabViewer.id settingsViewer () ()).1 =
      Id.new ((settingsViewer.title () ()).1.text) ∧
    (TabViewer.id settingsViewer () ()).1 =
      (TabViewer.id settingsViewerNat 0 5).1 :=
  ⟨rfl, default_id_pure_function_of_title settingsViewer settingsViewerNat
    () () 0 5 rfl⟩

/-- C2: every value of `OnCloseResponse` is exactly one of `Close`, `Focus`
or `Ignore`, and the three variants are pairwise unequal. -/
theorem onCloseResponse_three_distinct_variants :
    (∀ r : OnCloseResponse,
      r = OnCloseResponse.Close ∨ r = OnCloseResponse.Focus ∨
        r = OnCloseResponse.Ignore) ∧
    OnCloseResponse.Close ≠ OnCloseResponse.Focus ∧
    OnCloseResponse.Close ≠ OnCloseResponse.Ignore ∧
    OnCloseResponse.Focus ≠ OnCloseResponse.Ignore := by
  refine ⟨fun r => ?_, by decide, by decide, by decide⟩
  cases r
  · exact Or.inl rfl
  · exact Or.inr (Or.inl rfl)
  · exact Or.inr (Or.inr rfl)

/-- C3: the default `on_close` returns `OnCloseResponse::Close` and leaves
both the tab state and the viewer state unchanged. -/
theorem default_on_close_returns_close {V T Ui : Type}
    (self : TabViewer V T Ui) (v : V) (t : T) :
    TabViewer.on_close self v t = (OnCloseResponse.Close, v, t) :=
  rfl

/-- C4: the default `force_close` returns `false` and leaves both the tab
state and the viewer state unchanged, so under the defaults no tab is ever
removed via the forced-close channel. -/
theorem default_force_close_returns_false {V T Ui : Type}
    (self : TabViewer V T Ui) (v : V) (t : T) :
    TabViewer.force_close self v t = (false, v, t) :=
  rfl

/-- C5: the deprecated mutable `closeable` and the newer immutable
`is_closeable` agree in their default implementations: for every tab both
return `true`, and `closeable` additionally leaves viewer and tab state
unchanged, so the legacy alias has no semantic divergence under the
defaults. -/
theorem default_closeable_equivalent_is_closeable {V T Ui : Type}
    (self : TabViewer V T Ui) (v : V) (t : T) :
    TabViewer.is_closeable self v t = true ∧
    TabViewer.closeable self v t = (true, v, t) ∧
    (TabViewer.closeable self v t).1 = TabViewer.is_closeable self v t :=
  ⟨rfl, rfl, rfl⟩

/-- C6: the default `scroll_bars` returns `[true, true]`, i.e. the
(horizontal, vertical) pair of flags is `(true, true)`: both scroll bars
are provisioned by default. -/
theorem default_scroll_bars_both_true {V T Ui : Type}
    (self : TabViewer V T Ui) (v : V) (t : T) :
    TabViewer.scroll_bars self v t = [true, true] :=
  rfl

/-- C7: for every tab and every global style record, the default
`tab_style_override` returns `None`, so the ambient global style applies
unchanged to an un-overridden tab. -/
theorem default_tab_style_override_none {V T Ui : Type}
    (self : TabViewer V T Ui) (v : V) (t : T) (gs : TabStyle) :
    TabViewer.tab_style_override self v t gs = none :=
  rfl

/-- C8: every defaulted operation of the `TabViewer` contract is total: for
every input it returns a value of its declared result type, with no failure
channel.  For the default `id`, totality holds because the
implementer-supplied `title` is itself a total function in the embedding. -/
theorem tabviewer_defaults_total {V T Ui R : Type}
    (self : TabViewer V T Ui) (v : V) (u : Ui) (t : T)
    (s : SurfaceIndex) (n : NodeIndex) (r : R) (gs : TabStyle) :
    (∃ x, TabViewer.context_menu self v u t s n = x) ∧
    (∃ x, TabViewer.id self v t = x) ∧
    (∃ x, TabViewer.on_tab_button self v t r = x) ∧
    (∃ x, TabViewer.on_close self v t = x) ∧
    (∃ x, TabViewer.is_closeable self v t = x) ∧
    (∃ x, TabViewer.closeable self v t = x) ∧
    (∃ x, TabViewer.force_close self v t = x) ∧
    (∃ x, TabViewer.on_add self v s n = x) ∧
    (∃ x, TabViewer.on_rect_changed self v t = x) ∧
    (∃ x, TabViewer.add_popup self v u s n = x) ∧
    (∃ x, TabViewer.tab_style_override self v t gs = x) ∧
    (∃ x, TabViewer.allowed_in_windows self v t = x) ∧
    (∃ x, TabViewer.clear_background self v t = x) ∧
    (∃ x, TabViewer.scroll_bars self v t = x) :=
  ⟨⟨_, rfl⟩, ⟨_, rfl⟩, ⟨_, rfl⟩, ⟨_, rfl⟩, ⟨_, rfl⟩, ⟨_, rfl⟩, ⟨_, rfl⟩,
    ⟨_, rfl⟩, ⟨_, rfl⟩, ⟨_, rfl⟩, ⟨_, rfl⟩, ⟨_, rfl⟩, ⟨_, rfl⟩, ⟨_, rfl⟩⟩

/-- C9: the default hook operations — `context_menu`, `on_tab_button`,
`on_add`, `on_rect_changed` and `add_popup` — are no-ops: for every input
they return with the tab state, the viewer state and the drawing context
unchanged. -/
theorem tabviewer_default_hooks_noop {V T Ui R : Type}
    (self : TabViewer V T Ui) (v : V) (u : Ui) (t : T)
    (s : SurfaceIndex) (n : NodeIndex) (r : R) :
    TabViewer.context_menu self v u t s n = (v, u, t) ∧
    TabViewer.on_tab_button self v t r = (v, t) ∧
    TabViewer.on_add self v s n = v ∧
    TabViewer.on_rect_changed self v t = (v, t) ∧
    TabViewer.add_popup self v u s n = (v, u) :=
  ⟨rfl, rfl, rfl, rfl, rfl⟩

/-- C10: each defaulted query — `is_closeable`, `force_close`,
`allowed_in_windows`, `clear_background`, `scroll_bars` and
`tab_style_override` — is a constant function in its default
implementation: any two invocations, on any two viewers, tab states and
global styles, return equal results, so these decisions are independent of
the tab's contents. -/
theorem tabviewer_defaults_constant {V₁ T₁ U₁ V₂ T₂ U₂ : Type}
    (a : TabViewer V₁ T₁ U₁) (b : TabViewer V₂ T₂ U₂)
    (v₁ : V₁) (t₁ : T₁) (v₂ : V₂) (t₂ : T₂) (g₁ g₂ : TabStyle) :
    TabViewer.is_closeable a v₁ t₁ = TabViewer.is_closeable b v₂ t₂ ∧
    (TabViewer.force_close a v₁ t₁).1 = (TabViewer.force_close b v₂ t₂).1 ∧
    (TabViewer.allowed_in_windows a v₁ t₁).1 =
      (TabViewer.allowed_in_windows b v₂ t₂).1 ∧
    TabViewer.clear_background a v₁ t₁ = TabViewer.clear_background b v₂ t₂ ∧
    TabViewer.scroll_bars a v₁ t₁ = TabViewer.scroll_bars b v₂ t₂ ∧
    TabViewer.tab_style_override a v₁ t₁ g₁ =
      TabViewer.tab_style_override b v₂ t₂ g₂ :=
  ⟨rfl, rfl, rfl, rfl, rfl, rfl⟩

end EguiDock
